import Mathlib

/-!
Verification of the role/attribute composition idiom in
src/role-based-design.cpp.

The artifact is a compile-time component-composition mechanism: a
Composition class template owns one instance of each declared Role type
and each declared Attribute type, checks at build time that every Role
has its required Attributes, and exposes kind-indexed accessors backed
by a positional heterogeneous tuple (SimpleTuple).

The embedding works at the level the templates compute on: C++ types
("kinds") become inhabitants of an abstract type K with decidable
equality, TypeList becomes List K, fold expressions become List.foldr,
and a template whose instantiation fails to compile is modelled as an
Option that is none.  Stored component values are given by a family
Val : K → Type, and the SimpleTuple class becomes a heterogeneous list
indexed by the declared kind list.

Definitions bearing source names (IsTypeInPack, DependenciesMet,
IndexOf, SimpleTuple.Get, Composition.Role, Composition.Attribute,
Mover.MoveX, ...) model the source as written - including its defects:
the in-source IndexOf never resolves, so every Get and every accessor
instantiation is a build failure (none).  Definitions whose names end
in Intended model instead what the spec says the idiom was meant to do
(working first-occurrence lookup, working construction); they exist
only to state the intended values in the defect reports and support no
confirmed claim.

The float fields of the example Transform attribute are modelled as
rationals; this is relied on only at the concrete values of the spec
scenario (100, 0, 5, and the sum 105), all exactly representable in
binary32, where float arithmetic is exact and agrees with ℚ.
-/

namespace RoleBasedDesign

/-- TypeListV ks is the runtime VALUE of the C++ marker `TypeList<ks...>`
(line 12 of the source): an empty struct.  The type parameter list `ks`
is visible to the type system, but a value of the type carries no data
at all.  The Composition constructor (source lines 115-124) receives its
role and attribute initializers wrapped in two such marker values. -/
structure TypeListV (K : Type) (ks : List K) where

/-- IsTypeInPack (source line 97-98): the fold expression
`(std::is_same_v<T, TPack> || ...)`, a right fold of || over the pack
with an empty pack giving false. -/
def IsTypeInPack {K : Type} [DecidableEq K] (t : K) (pack : List K) : Bool :=
  pack.foldr (fun p acc => decide (t = p) || acc) false

/-- CheckRoleDependencies (source lines 100-105): for one Role, the fold
`(IsTypeInPack<TRequired, TAttributes...> && ...)` over that Role's
RequiredAttributes list; an empty requirement list gives true. -/
def CheckRoleDependencies {K : Type} [DecidableEq K] (required attrs : List K) : Bool :=
  required.foldr (fun r acc => IsTypeInPack r attrs && acc) true

/-- DependenciesMet (source line 107): the fold
`(CheckRoleDependencies<typename TRoles::RequiredAttributes>::AllPresent && ...)`
over the declared Role list.  `requiredOf` models the member typedef
`RequiredAttributes` of each Role type. -/
def DependenciesMet {K : Type} [DecidableEq K] (requiredOf : K → List K)
    (roles attrs : List K) : Bool :=
  roles.foldr (fun r acc => CheckRoleDependencies (requiredOf r) attrs && acc) true

/-- CompositionUsable: the conjunction of the two class-scope
static_asserts of Composition (source lines 108 and 110-111).  A
concrete Composition type is usable (the program builds) only if both
hold: DependenciesMet, and `(std::is_aggregate_v<TAttributes> && ...)`.
`isAgg` models the compiler intrinsic std::is_aggregate_v. -/
def CompositionUsable {K : Type} [DecidableEq K] (requiredOf : K → List K)
    (isAgg : K → Bool) (roles attrs : List K) : Bool :=
  DependenciesMet requiredOf roles attrs &&
    attrs.foldr (fun a acc => isAgg a && acc) true

/-- CtorCountAsserts: the two static_asserts in the Composition
constructor (source lines 120-123), comparing sizeof...(TRoles) with
sizeof...(RoleArgs) and sizeof...(TAttributes) with
sizeof...(AttributeArgs).  Both must pass for the constructor to
compile; there is no runtime error path. -/
def CtorCountAsserts {K : Type} (roles attrs roleArgs attrArgs : List K) : Bool :=
  (roles.length == roleArgs.length) && (attrs.length == attrArgs.length)

/-- IndexOf (source lines 29-36), modelled faithfully as template
instantiation behaves.  The primary template has no definition, so
`IndexOf<T, TypeList<>>` is a build failure: none.  The specialization
computes `is_same_v<T, First> ? 0 : 1 + IndexOf<T, TypeList<Rest...>>::value`,
and because both arms of the conditional are instantiated, the value
exists only if the recursive instantiation on the tail exists - hence
the Option.map.  (The source additionally declares the primary template
with one parameter but specializes it with two, which GCC 12 rejects
outright; the model charitably reads the two-parameter intent.) -/
def IndexOf {K : Type} [DecidableEq K] (t : K) : List K → Option Nat
  | [] => none
  | first :: rest => (IndexOf t rest).map (fun v => if t = first then 0 else 1 + v)

/-- Modelled from the spec: the lookup that the in-source IndexOf fails
to implement.  Spec section 4.2: "lookup resolves a kind to a position
by first occurrence in the declared list (kinds are unique, so this is
well-defined)".  The recursion stops at the first match instead of
unconditionally instantiating the tail. -/
def IndexOfSpec {K : Type} [DecidableEq K] (t : K) : List K → Option Nat
  | [] => none
  | first :: rest =>
      if t = first then some 0 else (IndexOfSpec t rest).map (fun v => v + 1)

/-- SimpleTuple (source lines 17-75): the positional heterogeneous
container.  The specialization `SimpleTuple<Head, Tail...>` holds a
`Head` member of the head type and a nested `SimpleTuple<Tail...>`;
`SimpleTuple<>` is empty.  `Val k` is the set of values of the C++ type
that the kind k names. -/
inductive SimpleTuple {K : Type} (Val : K → Type) : List K → Type where
  | nil : SimpleTuple Val []
  | cons {k : K} {ks : List K} (Head : Val k) (Tail : SimpleTuple Val ks) :
      SimpleTuple Val (k :: ks)

/-- GetByIndexImpl (source lines 38-54): positional access, returning
the Head when N = 0 and recursing into the Tail otherwise. -/
def SimpleTuple.GetByIndexImpl {K : Type} {Val : K → Type} :
    {ks : List K} → SimpleTuple Val ks → (N : Fin ks.length) → Val (ks.get N)
  | _ :: _, .cons Head _, ⟨0, _⟩ => Head
  | _ :: _, .cons _ Tail, ⟨Nat.succ n, h⟩ =>
      Tail.GetByIndexImpl ⟨n, Nat.lt_of_succ_lt_succ h⟩

/-- Get (source lines 64-74), modelled faithfully: the body first
instantiates `IndexOf<T, TypeList<HeadType, TailTypes...>>::value` and
then returns `GetByIndexImpl<Index>()`.  A failed instantiation is a
build failure, modelled as none: the index computation fails whenever
IndexOf does - which, by IndexOf_eq_none below, is always (the C6
defect) - and the positional access additionally requires the index to
be in range and the element stored there to have type T.  No Get
instantiation ever succeeds in the source, for declared kinds
included. -/
def SimpleTuple.Get {K : Type} [DecidableEq K] {Val : K → Type} (t : K)
    {ks : List K} (s : SimpleTuple Val ks) : Option (Val t) :=
  match IndexOf t ks with
  | none => none
  | some i =>
      if h : i < ks.length then
        if hk : ks.get ⟨i, h⟩ = t then some (hk ▸ s.GetByIndexImpl ⟨i, h⟩)
        else none
      else none

/-- Modelled from the spec: the lookup-and-return that Get was meant to
perform - resolve the kind to the position of its first occurrence and
return the element stored there - written as the equivalent
first-occurrence recursion (the agreement with IndexOfSpec plus
GetByIndexImpl is GetIntended_eq_getByIndexImpl below).  The in-source
Get never compiles (C6), so this definition only states intended values
inside the defect reports; no confirmed claim rests on it. -/
def SimpleTuple.GetIntended {K : Type} [DecidableEq K] {Val : K → Type} (t : K) :
    {ks : List K} → SimpleTuple Val ks → Option (Val t)
  | [], _ => none
  | k :: _, .cons Head Tail => if h : k = t then some (h ▸ Head) else Tail.GetIntended t

/-- Update replaces the value stored at the first occurrence of kind t
by f applied to it, leaving every other slot untouched: the write that
mutating through a successfully retrieved reference would perform.  In
the source no accessor ever yields such a reference (C6), so this
operation occurs only in the intended-semantics definitions and in the
success-gated branch of the faithful MoveX model. -/
def SimpleTuple.Update {K : Type} [DecidableEq K] {Val : K → Type} (t : K)
    (f : Val t → Val t) :
    {ks : List K} → SimpleTuple Val ks → SimpleTuple Val ks
  | [], s => s
  | k :: _, .cons Head Tail =>
      if h : k = t then .cons (h.symm ▸ f (h ▸ Head)) Tail
      else .cons Head (Tail.Update t f)

/-- HasRole (source line 127): `IsTypeInPack<T, TRoles...>`. -/
def HasRole {K : Type} [DecidableEq K] (roles : List K) (t : K) : Bool :=
  IsTypeInPack t roles

/-- HasAttribute (source line 128): `IsTypeInPack<T, TAttributes...>`. -/
def HasAttribute {K : Type} [DecidableEq K] (attrs : List K) (t : K) : Bool :=
  IsTypeInPack t attrs

/-- Composition state (source lines 90-94): the two owned tuples, one
instance per declared Role kind and per declared Attribute kind. -/
structure Composition {K : Type} (Val : K → Type) (roles attrs : List K) where
  RolesTuple : SimpleTuple Val roles
  AttributesTuple : SimpleTuple Val attrs

/-- Role accessor (source lines 130-140), modelled faithfully: the
static_assert on HasRole<T>() rejects an undeclared kind outright, and
on a declared kind the body forwards to the roles tuple's Get - whose
own instantiation always fails (C6).  none is a build failure; there is
no runtime error path. -/
def Composition.Role {K : Type} [DecidableEq K] {Val : K → Type}
    {roles attrs : List K} (t : K) (c : Composition Val roles attrs) :
    Option (Val t) :=
  if HasRole roles t then c.RolesTuple.Get t else none

/-- Attribute accessor (source lines 142-152), modelled faithfully:
static_assert on HasAttribute<T>() and forwarding to the attributes
tuple's Get, which never instantiates (C6). -/
def Composition.Attribute {K : Type} [DecidableEq K] {Val : K → Type}
    {roles attrs : List K} (t : K) (c : Composition Val roles attrs) :
    Option (Val t) :=
  if HasAttribute attrs t then c.AttributesTuple.Get t else none

/-- Modelled from the spec: the Attribute accessor with the intended
working lookup in place of the broken one.  Used only to state intended
values in the C8 defect report. -/
def Composition.AttributeIntended {K : Type} [DecidableEq K] {Val : K → Type}
    {roles attrs : List K} (t : K) (c : Composition Val roles attrs) :
    Option (Val t) :=
  if HasAttribute attrs t then c.AttributesTuple.GetIntended t else none

/-- Modelled from the spec: mutation of the host through the reference
that the intended Attribute accessor would return - gated by the same
static_assert, then an in-place update of the stored value.  The
in-source accessor never yields a reference (C6); this definition only
supports the intended-value conjuncts of the C8 defect report. -/
def Composition.UpdateAttributeIntended {K : Type} [DecidableEq K] {Val : K → Type}
    {roles attrs : List K} (t : K) (f : Val t → Val t)
    (c : Composition Val roles attrs) : Composition Val roles attrs :=
  if HasAttribute attrs t then
    { c with AttributesTuple := c.AttributesTuple.Update t f }
  else c

/-- GameKind: the concrete C++ types of the example section of the
source (lines 160-233) viewed as kinds, plus the hypothetical
non-aggregate Attribute kind of the negative scenario in section 8 of
the spec ("declare an Attribute kind with a user-defined constructor"). -/
inductive GameKind : Type where
  | transformK : GameKind
  | categoryK : GameKind
  | loggerK : GameKind
  | moverK : GameKind
  | nonAggregateK : GameKind
deriving DecidableEq

/-- Transform (source lines 164-166): three float fields defaulting to
0, modelled as rationals.  The only arithmetic facts asserted about
these fields are at the concrete scenario values 100, 0 and 5 (and the
sum 105), which are exactly representable in binary32 and on which
float addition is exact, so ℚ agrees with the source there; no exact
arithmetic law is claimed for arbitrary float inputs. -/
structure Transform where
  X : ℚ := 0
  Y : ℚ := 0
  Z : ℚ := 0
deriving DecidableEq

/-- Category (source lines 168-173): a Name field defaulting to
"Default", with SetName and GetName methods. -/
structure Category where
  Name : String := "Default"
deriving DecidableEq

/-- SetName (source line 171). -/
def Category.SetName (self : Category) (InName : String) : Category :=
  { self with Name := InName }

/-- GetName (source line 172). -/
def Category.GetName (self : Category) : String :=
  self.Name

/-- Logger state (source lines 178-196): the private Context string set
at construction. -/
structure Logger where
  Context : String
deriving DecidableEq

/-- Mover state (source lines 198-208): the Mover role has no fields. -/
structure Mover where
deriving DecidableEq

/-- NonAggregateAttr: the Attribute kind of the negative scenario, a
struct with a user-provided constructor. -/
structure NonAggregateAttr where
  Value : ℚ := 0
deriving DecidableEq

/-- GameVal assigns to each kind the type of its stored values. -/
def GameVal : GameKind → Type
  | .transformK => Transform
  | .categoryK => Category
  | .loggerK => Logger
  | .moverK => Mover
  | .nonAggregateK => NonAggregateAttr

/-- RequiredAttributesOf models the member typedef RequiredAttributes:
Logger declares `TypeList<>` (source line 181) and Mover declares
`TypeList<Transform>` (source line 201).  Attribute kinds carry no such
typedef and are never queried by DependenciesMet, which folds over the
Role list only; they are mapped to the empty list. -/
def RequiredAttributesOf : GameKind → List GameKind
  | .moverK => [.transformK]
  | _ => []

/-- StructShape records the properties of a C++ class declaration that
decide the aggregate clauses this development needs: C++17 aggregates
have no user-provided constructors, no virtual members and no
non-public non-static data members (public bases and ordinary methods
are allowed, so Category with its SetName method still qualifies). -/
structure StructShape where
  hasUserProvidedCtor : Bool
  hasVirtualMembers : Bool
  hasNonPublicData : Bool

/-- IsAggregate: the abridged C++17 std::is_aggregate_v rule on a
StructShape. -/
def IsAggregate (s : StructShape) : Bool :=
  !s.hasUserProvidedCtor && !s.hasVirtualMembers && !s.hasNonPublicData

/-- ShapeOf: the declaration shape of each concrete kind as written in
the source: Transform and Category are plain public structs with no
user-provided constructor; Logger has an explicit constructor (line
183) and a private Context member (line 195); Mover is an empty public
class; NonAggregateAttr has a user-provided constructor by scenario. -/
def ShapeOf : GameKind → StructShape
  | .transformK => ⟨false, false, false⟩
  | .categoryK => ⟨false, false, false⟩
  | .loggerK => ⟨true, false, true⟩
  | .moverK => ⟨false, false, false⟩
  | .nonAggregateK => ⟨true, false, false⟩

/-- IsAggregateOf: std::is_aggregate_v at each concrete kind. -/
def IsAggregateOf (k : GameKind) : Bool :=
  IsAggregate (ShapeOf k)

/-- MoveX (source lines 203-207), modelled faithfully: the single
statement `InHost.Attribute<Transform>().X += DeltaX` mutates the host
through the reference returned by the Attribute accessor, so its
instantiation succeeds only if the accessor's does; the whole member
function is gated on that lookup (none = build failure), and on success
the write would update the stored Transform in place.  (In standard C++
the call is additionally missing its template disambiguator, a further
build failure; GCC 12 rejects line 206 as written.) -/
def Mover.MoveX {roles attrs : List GameKind}
    (InHost : Composition GameVal roles attrs) (DeltaX : ℚ) :
    Option (Composition GameVal roles attrs) :=
  (InHost.Attribute GameKind.transformK).map (fun _ =>
    { InHost with
      AttributesTuple := InHost.AttributesTuple.Update GameKind.transformK
        (fun tr => { tr with X := tr.X + DeltaX }) })

/-- Modelled from the spec: the move-by-delta-on-X behavior MoveX was
meant to have, over the intended accessor chain.  Used only to state
the intended value 105 in the C8 defect report. -/
def Mover.MoveXIntended {roles attrs : List GameKind}
    (InHost : Composition GameVal roles attrs) (DeltaX : ℚ) :
    Composition GameVal roles attrs :=
  InHost.UpdateAttributeIntended GameKind.transformK
    (fun tr => { tr with X := tr.X + DeltaX })

/-- PlayerRoles: the Role list of the example Player (source line 213). -/
def PlayerRoles : List GameKind := [GameKind.loggerK, GameKind.moverK]

/-- PlayerAttributes: the Attribute list of the example Player (source
line 214). -/
def PlayerAttributes : List GameKind := [GameKind.transformK, GameKind.categoryK]

/-- CategoryDefault: the value `Category{}` of the source (line 222):
aggregate initialization with the default member initializer. -/
def CategoryDefault : Category := {}

/-- Modelled from the spec (section 3 Lifecycle and section 8): the
state the Player constructor (source lines 218-227) was meant to
produce - Logger(InName) and Mover() bound to the Role slots and
Transform{100, 0, 0} and Category{} to the Attribute slots in declared
order, then SetName(InName) on the Category attribute through the
accessor.  The in-source constructors are ill-formed and bind no
initializer at all (the C4 defect), so this definition only states
intended values inside the C8 defect report; no confirmed claim rests
on it. -/
def PlayerInitIntended (InName : String) :
    Composition GameVal PlayerRoles PlayerAttributes :=
  let base : Composition GameVal PlayerRoles PlayerAttributes :=
    { RolesTuple := .cons (Logger.mk InName) (.cons Mover.mk .nil)
      AttributesTuple := .cons (Transform.mk 100 0 0) (.cons CategoryDefault .nil) }
  base.UpdateAttributeIntended GameKind.categoryK (fun c => c.SetName InName)

theorem SimpleTuple.GetIntended_cons_self {K : Type} [DecidableEq K] {Val : K → Type}
    {t : K} {ks : List K} (Head : Val t) (Tail : SimpleTuple Val ks) :
    (SimpleTuple.cons Head Tail).GetIntended t = some Head := by
  simp [SimpleTuple.GetIntended]

theorem SimpleTuple.GetIntended_cons_ne {K : Type} [DecidableEq K] {Val : K → Type}
    {t k : K} {ks : List K} (h : k ≠ t) (Head : Val k) (Tail : SimpleTuple Val ks) :
    (SimpleTuple.cons Head Tail).GetIntended t = Tail.GetIntended t := by
  simp [SimpleTuple.GetIntended, h]

theorem IsTypeInPack_eq_true_iff {K : Type} [DecidableEq K] (t : K) (pack : List K) :
    IsTypeInPack t pack = true ↔ t ∈ pack := by
  induction pack with
  | nil => simp [IsTypeInPack]
  | cons p rest ih =>
      unfold IsTypeInPack at ih ⊢
      simp only [List.foldr_cons, Bool.or_eq_true, decide_eq_true_eq, ih,
        List.mem_cons]

theorem CheckRoleDependencies_eq_true_iff {K : Type} [DecidableEq K]
    (required attrs : List K) :
    CheckRoleDependencies required attrs = true ↔ ∀ a ∈ required, a ∈ attrs := by
  induction required with
  | nil => simp [CheckRoleDependencies]
  | cons r rest ih =>
      unfold CheckRoleDependencies at ih ⊢
      simp only [List.foldr_cons, Bool.and_eq_true, ih, IsTypeInPack_eq_true_iff,
        List.forall_mem_cons]

theorem DependenciesMet_eq_true_iff {K : Type} [DecidableEq K]
    (requiredOf : K → List K) (roles attrs : List K) :
    DependenciesMet requiredOf roles attrs = true ↔
      ∀ r ∈ roles, ∀ a ∈ requiredOf r, a ∈ attrs := by
  induction roles with
  | nil => simp [DependenciesMet]
  | cons r rest ih =>
      unfold DependenciesMet at ih ⊢
      simp only [List.foldr_cons, Bool.and_eq_true, ih,
        CheckRoleDependencies_eq_true_iff, List.forall_mem_cons]

theorem IndexOf_eq_none {K : Type} [DecidableEq K] (t : K) (l : List K) :
    IndexOf t l = none := by
  induction l with
  | nil => rfl
  | cons f rest ih => simp [IndexOf, ih]

theorem SimpleTuple.Get_eq_none {K : Type} [DecidableEq K] {Val : K → Type}
    (t : K) {ks : List K} (s : SimpleTuple Val ks) :
    s.Get t = none := by
  unfold SimpleTuple.Get
  rw [IndexOf_eq_none]

theorem Composition.Role_eq_none {K : Type} [DecidableEq K] {Val : K → Type}
    {roles attrs : List K} (t : K) (c : Composition Val roles attrs) :
    c.Role t = none := by
  unfold Composition.Role
  split
  · exact SimpleTuple.Get_eq_none t c.RolesTuple
  · rfl

theorem Composition.Attribute_eq_none {K : Type} [DecidableEq K] {Val : K → Type}
    {roles attrs : List K} (t : K) (c : Composition Val roles attrs) :
    c.Attribute t = none := by
  unfold Composition.Attribute
  split
  · exact SimpleTuple.Get_eq_none t c.AttributesTuple
  · rfl

theorem IndexOfSpec_first_occurrence {K : Type} [DecidableEq K] (t : K)
    (ks : List K) (i : Nat) (hi : IndexOfSpec t ks = some i) :
    ks[i]? = some t ∧ ∀ j, j < i → ks[j]? ≠ some t := by
  induction ks generalizing i with
  | nil => simp [IndexOfSpec] at hi
  | cons f rest ih =>
      unfold IndexOfSpec at hi
      by_cases ht : t = f
      · rw [if_pos ht] at hi
        obtain rfl : (0 : Nat) = i := by simpa using hi
        subst ht
        simp
      · rw [if_neg ht] at hi
        cases hrest : IndexOfSpec t rest with
        | none => rw [hrest] at hi; simp at hi
        | some j =>
            rw [hrest] at hi
            obtain rfl : j + 1 = i := by simpa using hi
            obtain ⟨h1, h2⟩ := ih j hrest
            refine ⟨by simpa using h1, ?_⟩
            intro jj hjj
            cases jj with
            | zero =>
                simp only [List.getElem?_cons_zero]
                intro hc
                exact ht (by simpa using hc.symm)
            | succ m =>
                simp only [List.getElem?_cons_succ]
                exact h2 m (Nat.lt_of_succ_lt_succ hjj)

theorem SimpleTuple.GetIntended_eq_getByIndexImpl {K : Type} [DecidableEq K]
    {V : Type} (t : K) {ks : List K} (s : SimpleTuple (fun _ => V) ks) (i : Nat)
    (hlt : i < ks.length) (hi : IndexOfSpec t ks = some i) :
    s.GetIntended t = some (s.GetByIndexImpl ⟨i, hlt⟩) := by
  induction s generalizing i with
  | nil => simp [IndexOfSpec] at hi
  | @cons k ks Head Tail ih =>
      unfold IndexOfSpec at hi
      by_cases ht : t = k
      · rw [if_pos ht] at hi
        obtain rfl : (0 : Nat) = i := by simpa using hi
        subst ht
        rw [SimpleTuple.GetIntended_cons_self]
        rfl
      · rw [if_neg ht] at hi
        cases hrest : IndexOfSpec t ks with
        | none => rw [hrest] at hi; simp at hi
        | some j =>
            rw [hrest] at hi
            obtain rfl : j + 1 = i := by simpa using hi
            rw [SimpleTuple.GetIntended_cons_ne (fun hh => ht hh.symm)]
            exact ih j (Nat.lt_of_succ_lt_succ hlt) hrest

theorem aggregateFold_eq_true_iff {K : Type} (isAgg : K → Bool) (attrs : List K) :
    attrs.foldr (fun a acc => isAgg a && acc) true = true ↔
      ∀ a ∈ attrs, isAgg a = true := by
  induction attrs with
  | nil => simp
  | cons a rest ih =>
      simp only [List.foldr_cons, Bool.and_eq_true, ih, List.forall_mem_cons]

/-- C1: for every concrete Composition declaration, DependenciesMet is
true exactly when every Role in the declared Role list has each kind of
its RequiredAttributes list present in the declared Attribute list (a
conjunction over Roles of a conjunction over requirements), and a
usable Composition type - one whose class-scope static_asserts pass -
has DependenciesMet. -/
theorem C1_dependencies_met_characterization {K : Type} [DecidableEq K]
    (requiredOf : K → List K) (isAgg : K → Bool) (roles attrs : List K) :
    (DependenciesMet requiredOf roles attrs = true ↔
      ∀ r ∈ roles, ∀ a ∈ requiredOf r, a ∈ attrs)
    ∧ (CompositionUsable requiredOf isAgg roles attrs = true →
      DependenciesMet requiredOf roles attrs = true) := by
  refine ⟨DependenciesMet_eq_true_iff requiredOf roles attrs, ?_⟩
  intro h
  simp only [CompositionUsable, Bool.and_eq_true] at h
  exact h.1

/-- C1 witness: the characterization applied to the example Player
declaration, whose usability check passes. -/
theorem C1_dependencies_met_witness :
    DependenciesMet RequiredAttributesOf PlayerRoles PlayerAttributes = true :=
  (C1_dependencies_met_characterization RequiredAttributesOf IsAggregateOf
    PlayerRoles PlayerAttributes).2 (by decide)

/-- C2: a usable Composition type has only aggregate Attribute kinds
(the is_aggregate static_assert, source lines 110-111); the scenario
Attribute kind with a user-provided constructor is not an aggregate,
and a Composition declaring it is not usable. -/
theorem C2_aggregate_gate :
    (∀ {K : Type} [DecidableEq K] (requiredOf : K → List K) (isAgg : K → Bool)
        (roles attrs : List K),
      CompositionUsable requiredOf isAgg roles attrs = true →
        ∀ a ∈ attrs, isAgg a = true)
    ∧ (ShapeOf GameKind.nonAggregateK).hasUserProvidedCtor = true
    ∧ IsAggregateOf GameKind.nonAggregateK = false
    ∧ CompositionUsable RequiredAttributesOf IsAggregateOf PlayerRoles
        [GameKind.nonAggregateK] = false := by
  refine ⟨?_, rfl, rfl, by decide⟩
  intro K _ requiredOf isAgg roles attrs h
  simp only [CompositionUsable, Bool.and_eq_true] at h
  exact (aggregateFold_eq_true_iff isAgg attrs).mp h.2

/-- C2 witness: the gate applied to the example Player declaration and
its Transform attribute. -/
theorem C2_aggregate_gate_witness : IsAggregateOf GameKind.transformK = true :=
  C2_aggregate_gate.1 RequiredAttributesOf IsAggregateOf PlayerRoles
    PlayerAttributes (by decide) GameKind.transformK (by decide)

/-- C3 (code defect): HasRole and HasAttribute are indeed pure
compile-time predicates, true exactly on declared kinds (proved), and
an undeclared kind can never be looked up at runtime; but the accessors
are not usable when the predicate holds either: every Role<K> and
Attribute<K> instantiation is a build failure, because the Get they
forward to never resolves (the C6 defect), so the claimed
build-time-gated access to declared kinds does not exist in the
program - the faithful accessors are none for every kind, declared or
not. -/
theorem C3_predicates_hold_accessors_never_compile {K : Type} [DecidableEq K]
    {Val : K → Type} {roles attrs : List K} (t : K)
    (c : Composition Val roles attrs) :
    (HasRole roles t = true ↔ t ∈ roles)
    ∧ (HasAttribute attrs t = true ↔ t ∈ attrs)
    ∧ c.Role t = none
    ∧ c.Attribute t = none :=
  ⟨IsTypeInPack_eq_true_iff t roles, IsTypeInPack_eq_true_iff t attrs,
    Composition.Role_eq_none t c, Composition.Attribute_eq_none t c⟩

/-- C4 (code defect): the Composition constructor takes its
initializers wrapped in TypeList marker VALUES (source lines 115-124),
and a TypeList value is an empty struct carrying no data - any two
markers over the same kind list are equal - so the constructed state
cannot depend on the supplied initializer expressions; the claimed
binding of the i-th initializer to the i-th declared kind does not
happen.  (The member initializers std::forward<RoleArgs>(RoleArgs) are
moreover ill-formed, naming a type where an expression is required, and
passing the initializers into the empty marker is an excess-initializer
error; GCC 12 rejects both.) -/
theorem C4_marker_values_carry_no_data :
    (∀ a b : TypeListV GameKind PlayerRoles, a = b)
    ∧ (∀ a b : TypeListV GameKind PlayerAttributes, a = b) := by
  constructor <;> (intro a b; cases a; cases b; rfl)

/-- C5 (code defect): identity stability is a property of the
references returned by Get, Role and Attribute, and the source never
returns one - every instantiation of those members is a build failure
through the broken IndexOf (the C6 defect) - so no mutation through a
retrieved reference can ever be performed or observed; the faithful
Get and both faithful accessors are none for every tuple, composition
and kind. -/
theorem C5_no_reference_is_ever_returned {K : Type} [DecidableEq K]
    {Val : K → Type} {roles attrs : List K} (c : Composition Val roles attrs)
    (t : K) (s : SimpleTuple Val attrs) :
    s.Get t = none ∧ c.Role t = none ∧ c.Attribute t = none :=
  ⟨SimpleTuple.Get_eq_none t s, Composition.Role_eq_none t c,
    Composition.Attribute_eq_none t c⟩

/-- C6 (code defect): the conditional in IndexOf instantiates the
recursive case even when the head type matches, so every instantiation
reaches IndexOf on the empty TypeList, which has no definition; the
lookup therefore never resolves, for any kind and any declared list,
while the claim requires resolution to the first occurrence.  The
intended lookup IndexOfSpec does resolve Transform to position 0 in the
example attribute list. -/
theorem C6_indexof_never_resolves :
    (∀ (t : GameKind) (l : List GameKind), IndexOf t l = none)
    ∧ IndexOf GameKind.transformK PlayerAttributes = none
    ∧ IndexOfSpec GameKind.transformK PlayerAttributes = some 0 :=
  ⟨fun t l => IndexOf_eq_none t l, IndexOf_eq_none _ _, rfl⟩

/-- C7: the constructor static_asserts pass exactly when the number of
Role initializer kinds equals the number of declared Roles and the
number of Attribute initializer kinds equals the number of declared
Attributes; a mismatch in either count fails an assert, which is a
build failure with no runtime error path. -/
theorem C7_ctor_count_asserts {K : Type} (roles attrs roleArgs attrArgs : List K) :
    CtorCountAsserts roles attrs roleArgs attrArgs = true ↔
      (roles.length = roleArgs.length ∧ attrs.length = attrArgs.length) := by
  simp [CtorCountAsserts]

/-- C8 (code defect in the build, intended value verified): the Player
declaration passes both class-scope checks, and under the intended
construction and lookup (the Intended-named spec models), the Transform
attribute starts at X = 100 and the move-by-5-on-X behavior leaves
X = 105; but the example as written in the source does not build (see
the C4 and C6 defect theorems). -/
theorem C8_player_scenario :
    CompositionUsable RequiredAttributesOf IsAggregateOf PlayerRoles
        PlayerAttributes = true
    ∧ ((PlayerInitIntended "Test").AttributeIntended GameKind.transformK).map
        (fun tr => tr.X) = some 100
    ∧ ((Mover.MoveXIntended (PlayerInitIntended "Test") 5).AttributeIntended
        GameKind.transformK).map (fun tr => tr.X) = some 105 := by
  refine ⟨by decide, rfl, ?_⟩
  have h : ((Mover.MoveXIntended (PlayerInitIntended "Test") 5).AttributeIntended
      GameKind.transformK).map (fun tr => tr.X) = some ((100 : ℚ) + 5) := rfl
  rw [h]
  norm_num

/-- C9 (code defect): the single statement of MoveX mutates the host
through Attribute<Transform>(), and that accessor never instantiates
(the C6 defect; in standard C++ the call is also missing its template
disambiguator), so MoveX never compiles and the claimed
add-d-to-X-change-nothing-else behavior is not exhibited by the
program: the faithful MoveX model is the build-failure value none for
every host shape, host state and delta, as is the accessor lookup it
is gated on. -/
theorem C9_movex_never_compiles (roles attrs : List GameKind)
    (host : Composition GameVal roles attrs) (d : ℚ) :
    Mover.MoveX host d = none
    ∧ host.Attribute GameKind.transformK = none := by
  refine ⟨?_, Composition.Attribute_eq_none GameKind.transformK host⟩
  unfold Mover.MoveX
  rw [Composition.Attribute_eq_none]
  rfl

/-- C10 (code defect in the Player half): SetName followed by GetName
does return the set name for every Category value and every string
(proved - the Category members at source lines 168-173 are
well-formed); but the in-particular half fails: the Player constructor
is ill-formed and binds no initializer (the C4 defect), and its
configuring call Attribute<Category>() never instantiates (the C6
defect), so no constructed Player exists whose Category name could
equal InName - the faithful accessor is none on every Player-shaped
composition. -/
theorem C10_roundtrip_holds_player_fails (c : Category) (n : String)
    (host : Composition GameVal PlayerRoles PlayerAttributes) :
    (c.SetName n).GetName = n
    ∧ host.Attribute GameKind.categoryK = none :=
  ⟨rfl, Composition.Attribute_eq_none GameKind.categoryK host⟩

end RoleBasedDesign
